import Mathlib

/-
Verification of the BPR Suggestion Agent (src/agent.py).

The program is a single-file Streamlit application.  The parts with a
behavioural contract are embedded here:

  * per-file text extraction with its try/except degradation (lines 123-150),
  * the per-document truncation and block assembly (lines 152-156),
  * the prompt template formatting (lines 88-112, 157),
  * the streaming collector loops for the report (lines 162-187) and the
    follow-up answer (lines 250-265),
  * the export sanitization and PDF/TXT fallback (lines 190-236),
  * the input-validation branches of the Generate and Ask buttons
    (lines 115-119, 243-267),
  * the file-description dictionary keyed by filename (lines 80-85).

Python strings are sequences of Unicode code points, modelled as `List Char`.
External events the program reacts to (what the parser raises, what chunks the
LLM stream yields and when it fails, whether FPDF.output raises) are explicit
parameters of the embedded functions.
-/

namespace BPRAgent

/-- Python strings are sequences of Unicode code points. -/
abbrev PyStr := List Char

/-- Code points of a Lean string literal; used to embed Python string
literals. -/
def lit (s : String) : PyStr := s.data

/-! Section: Uploaded files and text extraction (agent.py lines 123-150) -/

/-- What the per-format parsing libraries return for one uploaded file.
`pdf` carries `page.extract_text()` per page (`none` when a page has no
extractable text, line 137); `csvTable` carries the string produced by
`df.to_string(max_rows=20, max_cols=8)` (line 143); `docx` carries the
paragraph texts (line 147); `raisesErr` is a parse that raises an exception
with the given message (caught at line 149); `unknownExt` is an extension
matching none of the three branches, leaving `text_content = ""`
(line 130). -/
inductive FileContent where
  | pdf (pages : List (Option PyStr))
  | csvTable (rendered : PyStr)
  | docx (paragraphs : List PyStr)
  | raisesErr (cause : PyStr)
  | unknownExt
deriving DecidableEq

/-- One uploaded file: its name, the description typed in its text area
(lines 83-85), and what parsing it will yield. -/
structure UploadedFile where
  name : PyStr
  description : PyStr
  content : FileContent
deriving DecidableEq

/-- The body of the `try:` block, lines 131-148: per-extension extraction.
A raising parse is an `.error`; PDF pages are joined by newlines after
`page.extract_text() or ""` (lines 134-139); DOCX paragraphs are joined by
newlines (lines 146-148). -/
def parseFile (f : UploadedFile) : Except PyStr PyStr :=
  match f.content with
  | .pdf pages => .ok (List.intercalate (lit ("\n")) (pages.map (fun p => p.getD [])))
  | .csvTable rendered => .ok rendered
  | .docx paragraphs => .ok (List.intercalate (lit ("\n")) paragraphs)
  | .raisesErr cause => .error cause
  | .unknownExt => .ok []

/-- Lines 130-150: `text_content` after the try/except.  An exception is
replaced by the inline marker built at line 150. -/
def text_content (f : UploadedFile) : PyStr :=
  match parseFile f with
  | .ok t => t
  | .error e => lit ("[Error reading ") ++ f.name ++ lit (": ") ++ e ++ lit ("]")

/-! Section: Truncation and per-document block assembly (agent.py lines 152-156) -/

/-- The literal appended at line 153 when the extracted text is cut. -/
def truncationMarker : PyStr := lit ("\n[Truncated]")

/-- Line 153: `snippet = text_content if len(text_content) < 5000 else
text_content[:5000] + "\n[Truncated]"`. -/
def snippet (text : PyStr) : PyStr :=
  if text.length < 5000 then text else text.take 5000 ++ truncationMarker

/-! Section: The file-description dictionary (agent.py lines 80-85, 152) -/

/-- Python dict assignment `d[k] = v` (line 85): replace the value of an
existing key in place, else append the new pair. -/
def dictSet : List (PyStr × PyStr) → PyStr → PyStr → List (PyStr × PyStr)
  | [], k, v => [(k, v)]
  | (k0, v0) :: rest, k, v =>
    if k0 = k then (k, v) :: rest else (k0, v0) :: dictSet rest k v

/-- Python `d.get(k, dflt)` (line 152). -/
def dictGet (d : List (PyStr × PyStr)) (k dflt : PyStr) : PyStr :=
  match d.find? (fun p => p.1 == k) with
  | some p => p.2
  | none => dflt

/-- Lines 80-85: the `file_descriptions` dict is filled by iterating over the
uploaded files and assigning `file_descriptions[f.name] = desc`.  Two files
with the same name write to the same key. -/
def file_descriptions (files : List UploadedFile) : List (PyStr × PyStr) :=
  files.foldl (fun d f => dictSet d f.name f.description) []

/-- Line 154: the per-document block
`f"File: {name}\nDescription: {desc}\nContent:\n{snippet}"`, with `snippet`
computed from the given text at line 153. -/
def docBlock (name desc text : PyStr) : PyStr :=
  lit ("File: ") ++ name ++ lit ("\nDescription: ") ++ desc
    ++ lit ("\nContent:\n") ++ snippet text

/-- Lines 123-154: the `all_texts` list, one block per uploaded file in upload
order, each looking its description up in the dict by filename. -/
def all_texts (descs : List (PyStr × PyStr)) (files : List UploadedFile) :
    List PyStr :=
  files.map (fun f => docBlock f.name (dictGet descs f.name []) (text_content f))

/-- Line 156: `combined_docs = "\n\n".join(all_texts)`. -/
def combined_docs (descs : List (PyStr × PyStr)) (files : List UploadedFile) :
    PyStr :=
  List.intercalate (lit ("\n\n")) (all_texts descs files)

/-! Section: Prompt template (agent.py lines 88-112, 157) -/

/-- Lines 88-112 and 157: `prompt_template.format(documents=..., user=...,
org=...)` — the template string with its three substitution points filled. -/
def prompt_template_format (documents user org : PyStr) : PyStr :=
  lit ("\nYou are an AI Business Process Reengineering Expert for manufacturing. Do not hallucinate and give results within\nthe provided documents, refer only real fact data to generate result.\n\nGenerate a detailed report for:\n- User: ")
    ++ user
    ++ lit ("\n- Organization: ")
    ++ org
    ++ lit ("\n\nProduce a structured improvement report including:\n1) Overview of current process\n2) Detected inefficiencies / bottlenecks\n3) Proposed reengineering actions (detailed steps)\n4) Expected business benefits (KPI impact estimates, timeline)\n5) Benchmark comparisons if applicable\n6) Automation & digitalization opportunities\n7) Risks & mitigations\n\nUse Lean, Six Sigma concepts where relevant and be concise and actionable.\n\nDocuments:\n")
    ++ documents
    ++ lit ("\n")

/-! Section: Streaming collector (agent.py lines 162-187 and 250-265) -/

/-- One chunk yielded by `llm.stream`, in the shapes the loop at lines
169-176 distinguishes: an object with a `content` attribute (possibly
`None`), a dict with a `"content"` key (possibly `None`), a plain string, or
anything else. -/
inductive Chunk where
  | withContentAttr (content : Option PyStr)
  | dictWithContentKey (content : Option PyStr)
  | plainStr (s : PyStr)
  | otherShape
deriving DecidableEq

/-- Lines 170-176: the normalized `text_chunk`.  `chunk.content or ""` maps
`None` to the empty string; a shape matching no branch leaves the initial
`""`. -/
def text_chunk : Chunk → PyStr
  | .withContentAttr c => c.getD []
  | .dictWithContentKey c => c.getD []
  | .plainStr s => s
  | .otherShape => []

/-- Lines 178-180: `if text_chunk: streamed_output += text_chunk` — the
buffer update for one chunk (an empty normalized chunk is skipped). -/
def appendStep (buf : PyStr) (c : Chunk) : PyStr :=
  if text_chunk c = [] then buf else buf ++ text_chunk c

/-- The buffer after the loop has consumed the given chunks, starting from
`streamed_output = ""` (line 162). -/
def bufferAfter (chunks : List Chunk) : PyStr :=
  chunks.foldl appendStep []

/-- The successive buffer states passed to `stream_container.markdown`
(line 180): one state per chunk whose normalized text is non-empty, starting
from the given buffer. -/
def renderStates : PyStr → List Chunk → List PyStr
  | _, [] => []
  | buf, c :: cs =>
    if text_chunk c = [] then renderStates buf cs
    else (buf ++ text_chunk c) :: renderStates (buf ++ text_chunk c) cs

/-- The literal placeholder of line 183. -/
def placeholderText : PyStr := lit ("[Partial output received]")

/-- Lines 167-183, report mode: the final `streamed_output` when the stream
yields the given chunks; `failAt = some k` means `llm.stream` raised after
yielding `k` chunks, in which case line 183 runs
(`streamed_output = streamed_output or "[Partial output received]"`);
`failAt = none` means the stream completed. -/
def runReportStream (chunks : List Chunk) (failAt : Option Nat) : PyStr :=
  match failAt with
  | none => bufferAfter chunks
  | some k =>
    if bufferAfter (chunks.take k) = [] then placeholderText
    else bufferAfter (chunks.take k)

/-- Lines 252-265, follow-up mode: the final `response_text`.  The except
branch (line 265) only shows an error; there is no placeholder
substitution. -/
def runFollowupStream (chunks : List Chunk) (failAt : Option Nat) : PyStr :=
  match failAt with
  | none => bufferAfter chunks
  | some k => bufferAfter (chunks.take k)

/-! Section: Export sanitization and artifacts (agent.py lines 190-236) -/

/-- Python `s.encode("latin-1", errors="replace")` (line 195): each code
point at most 255 becomes its own byte, anything else becomes the byte 63
(the question mark).  With the `replace` handler this encode cannot raise,
so the ASCII branch of the except at lines 196-198 is unreachable. -/
def latin1EncodeReplace (s : PyStr) : List Nat :=
  s.map (fun c => if c.toNat ≤ 255 then c.toNat else 63)

/-- Python `bytes.decode("latin-1")` (line 195): byte value to code point,
never raising. -/
def latin1Decode (bs : List Nat) : PyStr :=
  bs.map (fun b => Char.ofNat b)

/-- Lines 192-198: `sanitize_for_pdf` — encode to latin-1 with replacement,
decode back. -/
def sanitize_for_pdf (s : PyStr) : PyStr :=
  latin1Decode (latin1EncodeReplace s)

/-- The artifact offered through `st.download_button`: either the rendered
PDF (whose header and body hold the sanitized strings, lines 204-227) or the
plain-text fallback carrying the raw report (lines 228-236). -/
inductive Artifact where
  | pdfDownload (name org body filename : PyStr)
  | txtDownload (body filename : PyStr)
deriving DecidableEq

/-- Lines 190-236: the export step.  Runs only when `streamed_output` is
non-empty (line 190); `pdfOutputFails` tells whether `pdf.output` raised at
line 220, in which case the fallback TXT button offers the raw, unsanitized
`streamed_output` (line 233). -/
def exportStep (user_name organization streamed_output : PyStr)
    (pdfOutputFails : Bool) : Option Artifact :=
  if streamed_output = [] then none
  else
    let safe_name := sanitize_for_pdf
      (if user_name = [] then lit ("User") else user_name)
    let safe_org := sanitize_for_pdf
      (if organization = [] then lit ("Organization") else organization)
    let safe_report := sanitize_for_pdf streamed_output
    if pdfOutputFails then
      some (.txtDownload streamed_output
        (lit ("BPR_Report_") ++ safe_name ++ lit (".txt")))
    else
      some (.pdfDownload safe_name safe_org safe_report
        (lit ("BPR_Report_") ++ safe_name ++ lit (".pdf")))

/-! Section: Button actions, session state and observable effects
(agent.py lines 115-236 and 238-267) -/

/-- The session state keys written at lines 186-187 (`st.session_state`
entries "context" and "report"), `none` before first assignment. -/
structure SessionState where
  context : Option PyStr
  report : Option PyStr
deriving DecidableEq

/-- The outward-visible effects of one button action that the claims are
about: warnings (`st.warning`), the request issued to the LLM backend
(`llm.stream`), the streaming-failure error notice (`st.error`), and a
download offer (`st.download_button`).  Pure page chrome (spinner, info and
success banners) is not modelled. -/
inductive Effect where
  | warning (msg : PyStr)
  | llmCall (prompt : PyStr)
  | errorNotice
  | offerDownload (a : Artifact)
deriving DecidableEq

/-- Lines 115-236: the Generate button handler.  Validation first (lines
116-119); otherwise extraction, prompt assembly, streaming (with the stream
behaviour given by `chunks`/`failAt`), session-state storage (lines 186-187)
and the export step.  Returns the session state after the action and the
effect list in program order. -/
def generateAction (user_name organization : PyStr)
    (files : List UploadedFile) (chunks : List Chunk) (failAt : Option Nat)
    (pdfOutputFails : Bool) (st : SessionState) :
    SessionState × List Effect :=
  if user_name = [] ∨ organization = [] then
    (st, [.warning (lit ("Please enter your name and organization before generating the report."))])
  else if files = [] then
    (st, [.warning (lit ("Please upload at least one file."))])
  else
    let descs := file_descriptions files
    let full_prompt :=
      prompt_template_format (combined_docs descs files) user_name organization
    let streamed_output := runReportStream chunks failAt
    let failEffects : List Effect :=
      match failAt with
      | some _ => [.errorNotice]
      | none => []
    let exportEffects : List Effect :=
      match exportStep user_name organization streamed_output pdfOutputFails with
      | some a => [.offerDownload a]
      | none => []
    ({ context := some (full_prompt ++ lit ("\n\nLLM Response:\n") ++ streamed_output),
       report := some streamed_output },
     .llmCall full_prompt :: failEffects ++ exportEffects)

/-- The characters removed by Python `str.strip()` for ASCII input (line
244): space, tab, newline, carriage return, vertical tab, form feed. -/
def isPySpace (c : Char) : Bool :=
  c == ' ' || c == '\t' || c == '\n' || c == '\r' || c == '\x0b' || c == '\x0c'

/-- Python `s.strip()` (line 244): drop leading and trailing whitespace. -/
def pyStrip (s : PyStr) : PyStr :=
  ((s.dropWhile isPySpace).reverse.dropWhile isPySpace).reverse

/-- Lines 243-267: the Ask button handler.  `if user_query.strip():` guards
the whole follow-up; the invalid branch only warns (line 267).  The valid
branch builds the follow-up prompt from the stored context (lines 245-248)
and streams it; the handler never writes session state in either branch.
The streamed answer itself (display-only, `runFollowupStream` applied to the
chunk sequence) is settled separately, so the chunk parameter is unused
here. -/
def askAction (user_query : PyStr) (_chunks : List Chunk) (failAt : Option Nat)
    (st : SessionState) : SessionState × List Effect :=
  if pyStrip user_query = [] then
    (st, [.warning (lit ("Please enter a question before clicking Ask."))])
  else
    let followup_prompt :=
      st.context.getD [] ++ lit ("\n\nUser follow-up question: ") ++ user_query
        ++ lit ("\nAnswer concisely based on the context.")
    let failEffects : List Effect :=
      match failAt with
      | some _ => [.errorNotice]
      | none => []
    (st, .llmCall followup_prompt :: failEffects)

/-- The description Python's dict would report for key `n` after all
assignments of lines 83-85: the description of the last file in the list
bearing that name, if any. -/
def lastDesc (files : List UploadedFile) (n : PyStr) : Option PyStr :=
  match files with
  | [] => none
  | f :: fs =>
    match lastDesc fs n with
    | some v => some v
    | none => if f.name = n then some f.description else none

/-! Section: Helper lemmas about the streaming collector -/

/-- Folding `appendStep` appends the concatenation of the normalized chunk
texts: the empty-chunk guard of line 178 never changes the buffer value. -/
theorem foldl_appendStep (cs : List Chunk) :
    ∀ acc : PyStr, cs.foldl appendStep acc = acc ++ (cs.map text_chunk).flatten := by
  induction cs with
  | nil => intro acc; simp
  | cons c cs ih =>
    intro acc
    rw [List.foldl_cons, ih]
    by_cases h : text_chunk c = [] <;> simp [appendStep, h]

/-- The loop buffer is the concatenation of all normalized chunk texts. -/
theorem bufferAfter_eq_flatten (cs : List Chunk) :
    bufferAfter cs = (cs.map text_chunk).flatten := by
  simpa using foldl_appendStep cs []

/-- Every rendered buffer state extends the buffer it started from, and each
rendered state is a prefix of the next. -/
theorem chain_renderStates (chunks : List Chunk) :
    ∀ acc : PyStr, List.Chain' (· <+: ·) (acc :: renderStates acc chunks) := by
  induction chunks with
  | nil => intro acc; simp [renderStates]
  | cons c cs ih =>
    intro acc
    by_cases h : text_chunk c = []
    · simpa [renderStates, h] using ih acc
    · rw [renderStates, if_neg h, List.chain'_cons]
      exact ⟨List.prefix_append acc (text_chunk c), ih (acc ++ text_chunk c)⟩

/-! Section: Claim theorems -/

/-- Claim C2: if the report-mode stream raises after contributing zero text,
the final buffer is the literal `[Partial output received]`; if it raises
after appending chunks, the final buffer is exactly their concatenation; and
in both cases that buffer is what the Generate handler stores into session
state as the report. -/
theorem C2_streaming_failure_preservation (chunks : List Chunk) (k : Nat) :
    (((chunks.take k).map text_chunk).flatten = [] →
      runReportStream chunks (some k) = placeholderText) ∧
    (((chunks.take k).map text_chunk).flatten ≠ [] →
      runReportStream chunks (some k) = ((chunks.take k).map text_chunk).flatten) ∧
    (∀ (user_name organization : PyStr) (files : List UploadedFile)
      (pdfOutputFails : Bool) (st : SessionState),
      user_name ≠ [] → organization ≠ [] → files ≠ [] →
      (generateAction user_name organization files chunks (some k)
          pdfOutputFails st).1.report
        = some (runReportStream chunks (some k))) := by
  refine ⟨?_, ?_, ?_⟩
  · intro h
    simp only [runReportStream, bufferAfter_eq_flatten, h]
    simp
  · intro h
    simp only [runReportStream, bufferAfter_eq_flatten]
    rw [if_neg h]
  · intro user_name organization files pdfOutputFails st h1 h2 h3
    simp [generateAction, h1, h2, h3]

/-- Sample uploaded file used by concrete witnesses. -/
def sampleFile : UploadedFile :=
  { name := lit ("a.csv"), description := lit ("costs"),
    content := .csvTable (lit ("Cost")) }

/-- Witness for C2 at concrete inputs: an immediately-failing stream yields
the placeholder; a stream failing after one text chunk yields that chunk,
and the Generate handler stores it as the report. -/
theorem C2_streaming_failure_preservation_witness :
    runReportStream [] (some 0) = placeholderText ∧
    runReportStream [Chunk.plainStr (lit ("hi"))] (some 1)
      = (([Chunk.plainStr (lit ("hi"))].take 1).map text_chunk).flatten ∧
    (generateAction (lit ("Jane")) (lit ("Acme")) [sampleFile]
        [Chunk.plainStr (lit ("hi"))] (some 1) false
        { context := none, report := none }).1.report
      = some (runReportStream [Chunk.plainStr (lit ("hi"))] (some 1)) :=
  ⟨(C2_streaming_failure_preservation [] 0).1 (by decide),
   (C2_streaming_failure_preservation [Chunk.plainStr (lit ("hi"))] 1).2.1
     (by decide),
   (C2_streaming_failure_preservation [Chunk.plainStr (lit ("hi"))] 1).2.2
     (lit ("Jane")) (lit ("Acme")) [sampleFile] false
     { context := none, report := none }
     (by decide) (by decide) (by decide)⟩

/-- Claim C3: for every inbound chunk sequence, of any mix of shapes, the
successive buffer states exposed to the renderer are prefix-consistent
(each is a prefix of the next) and their lengths never decrease. -/
theorem C3_renderer_buffer_monotone (chunks : List Chunk) :
    List.Chain' (· <+: ·) (renderStates [] chunks) ∧
    List.Chain' (fun a b : PyStr => a.length ≤ b.length)
      (renderStates [] chunks) := by
  have h := (chain_renderStates chunks []).tail
  exact ⟨h, h.imp fun a b hab => hab.length_le⟩

/-- Claim C4 as stated is false: when the stream fails after zero chunks the
report-mode loop produces the placeholder but the follow-up loop produces
the empty string. -/
theorem C4_counterexample :
    runFollowupStream [] (some 0) ≠ runReportStream [] (some 0) := by decide

/-- Claim C4 (amended): the follow-up loop uses the same chunk
normalization and accumulation as the report loop, and on success or on
failure with a non-empty buffer the two produce the same final text; but on
mid-stream failure the follow-up loop keeps the accumulated buffer as is —
it never substitutes the placeholder, so an empty buffer stays empty. -/
theorem C4_followup_report_equivalence (chunks : List Chunk) :
    (runFollowupStream chunks none = runReportStream chunks none) ∧
    (∀ k : Nat,
      runFollowupStream chunks (some k)
        = ((chunks.take k).map text_chunk).flatten ∧
      runReportStream chunks (some k)
        = (if runFollowupStream chunks (some k) = [] then placeholderText
           else runFollowupStream chunks (some k))) := by
  refine ⟨rfl, fun k => ⟨?_, ?_⟩⟩
  · simp [runFollowupStream, bufferAfter_eq_flatten]
  · simp [runFollowupStream, runReportStream]

/-- Claim C1 as stated is false: a text of length exactly 5000 satisfies the
claim's "length ≤ 5000" hypothesis, yet line 153 uses a strict `< 5000`
comparison, so the assembled content is not byte-identical to the raw
extraction — the truncation marker is appended to it. -/
theorem C1_counterexample :
    (List.replicate 5000 'a').length ≤ 5000 ∧
    snippet (List.replicate 5000 'a') ≠ List.replicate 5000 'a' := by
  have hlen : (List.replicate 5000 'a').length = 5000 :=
    List.length_replicate 5000 'a'
  refine ⟨le_of_eq hlen, fun h => ?_⟩
  have hnot : ¬ (List.replicate 5000 'a').length < 5000 := by
    rw [hlen]; exact Nat.lt_irrefl 5000
  rw [snippet, if_neg hnot] at h
  have hc := congrArg List.length h
  rw [List.length_append, List.length_take, hlen, Nat.min_self] at hc
  have hm : truncationMarker.length = 12 := by decide
  rw [hm] at hc
  exact absurd hc (by decide)

/-- Claim C1 (amended): for every document whose extracted text has length
strictly below 5000, the assembled content is the raw extraction
byte-identically, with nothing appended; for every document whose extracted
text has length at least 5000 — including exactly 5000 — the assembled
content has length 5000 plus the length of the truncation marker and its
first 5000 characters equal the source's first 5000 characters. -/
theorem C1_truncation_policy (t : PyStr) :
    (t.length < 5000 → snippet t = t) ∧
    (5000 ≤ t.length →
      (snippet t).length = 5000 + truncationMarker.length ∧
      (snippet t).take 5000 = t.take 5000) := by
  constructor
  · intro h
    rw [snippet, if_pos h]
  · intro h
    have hnot : ¬ t.length < 5000 := Nat.not_lt.mpr h
    rw [snippet, if_neg hnot]
    constructor
    · rw [List.length_append, List.length_take]
      congr 1
      exact Nat.min_eq_left h
    · rw [List.take_append_eq_append_take, List.length_take,
        Nat.min_eq_left h, List.take_take, Nat.min_self, Nat.sub_self,
        List.take_zero, List.append_nil]

/-- Witness for C1 at concrete inputs: a three-character text passes
through unchanged, and a 5001-character text is cut to 5000 characters plus
the marker with its first 5000 characters preserved. -/
theorem C1_truncation_policy_witness :
    snippet (lit ("abc")) = lit ("abc") ∧
    ((snippet (List.replicate 5001 'b')).length
        = 5000 + truncationMarker.length ∧
      (snippet (List.replicate 5001 'b')).take 5000
        = (List.replicate 5001 'b').take 5000) :=
  ⟨(C1_truncation_policy (lit ("abc"))).1 (by decide),
   (C1_truncation_policy (List.replicate 5001 'b')).2
     (by rw [List.length_replicate]; exact Nat.le_succ 5000)⟩

/-- Claim C5: with an empty name, empty organization, or no uploaded files,
the Generate handler's only effect is a warning — no LLM call — and the
session state is unchanged; likewise the Ask handler with a
whitespace-only question. -/
theorem C5_validation_aborts (user_name organization : PyStr)
    (files : List UploadedFile) (chunks : List Chunk) (failAt : Option Nat)
    (pdfOutputFails : Bool) (st : SessionState) (user_query : PyStr) :
    ((user_name = [] ∨ organization = []) →
      generateAction user_name organization files chunks failAt
          pdfOutputFails st
        = (st, [.warning (lit ("Please enter your name and organization before generating the report."))])) ∧
    (user_name ≠ [] → organization ≠ [] → files = [] →
      generateAction user_name organization files chunks failAt
          pdfOutputFails st
        = (st, [.warning (lit ("Please upload at least one file."))])) ∧
    (pyStrip user_query = [] →
      askAction user_query chunks failAt st
        = (st, [.warning (lit ("Please enter a question before clicking Ask."))])) := by
  refine ⟨?_, ?_, ?_⟩
  · intro h
    unfold generateAction
    rw [if_pos h]
  · intro h1 h2 h3
    unfold generateAction
    rw [if_neg (by simp [h1, h2]), if_pos h3]
  · intro h
    unfold askAction
    rw [if_pos h]

/-- Witness for C5 at concrete inputs: an empty name, then an empty file
list, then a whitespace-only follow-up question, each leaving the state
untouched with a single warning. -/
theorem C5_validation_aborts_witness :
    generateAction [] (lit ("Acme")) [sampleFile] [] none false
        { context := none, report := none }
      = ({ context := none, report := none },
         [.warning (lit ("Please enter your name and organization before generating the report."))]) ∧
    generateAction (lit ("Jane")) (lit ("Acme")) [] [] none false
        { context := none, report := none }
      = ({ context := none, report := none },
         [.warning (lit ("Please upload at least one file."))]) ∧
    askAction (lit (" \t ")) [] none { context := some [], report := some [] }
      = ({ context := some [], report := some [] },
         [.warning (lit ("Please enter a question before clicking Ask."))]) :=
  ⟨(C5_validation_aborts [] (lit ("Acme")) [sampleFile] [] none false
      { context := none, report := none } []).1 (Or.inl rfl),
   (C5_validation_aborts (lit ("Jane")) (lit ("Acme")) [] [] none false
      { context := none, report := none } []).2.1
     (by decide) (by decide) rfl,
   (C5_validation_aborts [] [] [] [] none false
      { context := some [], report := some [] } (lit (" \t "))).2.2
     (by decide)⟩

/-- Claim C6: a file whose parsing raises contributes exactly the inline
error string, fed through the same truncation and block formatting as
extracted text, and every other file of the batch is still processed — the
blocks before and after it are exactly those of the surrounding files. -/
theorem C6_extraction_failure_degrades (descs : List (PyStr × PyStr))
    (pre post : List UploadedFile) (name fdesc cause : PyStr) :
    all_texts descs
        (pre ++ { name := name, description := fdesc,
                  content := .raisesErr cause } :: post)
      = all_texts descs pre
        ++ docBlock name (dictGet descs name [])
             (lit ("[Error reading ") ++ name ++ lit (": ") ++ cause ++ lit ("]"))
          :: all_texts descs post := by
  rw [all_texts, List.map_append, List.map_cons]
  rfl

/-- Claim C7: whenever the report text is non-empty the export step offers
some artifact — the rendered PDF when `pdf.output` succeeds, and otherwise
the raw, unsanitized report text as a plain-text download. -/
theorem C7_export_availability (user_name organization streamed_output : PyStr)
    (pdfOutputFails : Bool) (h : streamed_output ≠ []) :
    (∃ a, exportStep user_name organization streamed_output pdfOutputFails
      = some a) ∧
    (pdfOutputFails = true →
      exportStep user_name organization streamed_output pdfOutputFails
        = some (.txtDownload streamed_output
            (lit ("BPR_Report_")
              ++ sanitize_for_pdf
                  (if user_name = [] then lit ("User") else user_name)
              ++ lit (".txt")))) ∧
    (pdfOutputFails = false →
      exportStep user_name organization streamed_output pdfOutputFails
        = some (.pdfDownload
            (sanitize_for_pdf
              (if user_name = [] then lit ("User") else user_name))
            (sanitize_for_pdf
              (if organization = [] then lit ("Organization") else organization))
            (sanitize_for_pdf streamed_output)
            (lit ("BPR_Report_")
              ++ sanitize_for_pdf
                  (if user_name = [] then lit ("User") else user_name)
              ++ lit (".pdf")))) := by
  refine ⟨?_, ?_, ?_⟩
  · unfold exportStep
    rw [if_neg h]
    cases pdfOutputFails <;> exact ⟨_, rfl⟩
  · intro hp
    subst hp
    unfold exportStep
    rw [if_neg h]
    rfl
  · intro hp
    subst hp
    unfold exportStep
    rw [if_neg h]
    rfl

/-- Witness for C7 at a concrete input: a one-character report with a
failing PDF renderer still yields an artifact. -/
theorem C7_export_availability_witness :
    ∃ a, exportStep (lit ("Jane")) (lit ("Acme")) (lit ("r")) true = some a :=
  (C7_export_availability (lit ("Jane")) (lit ("Acme")) (lit ("r")) true
    (by decide)).1

/-- Joining a non-singleton list with a separator peels off the head
followed by one separator. -/
theorem intercalate_cons_of_ne_nil (sep x : PyStr) (xs : List PyStr)
    (h : xs ≠ []) :
    List.intercalate sep (x :: xs) = x ++ sep ++ List.intercalate sep xs := by
  cases xs with
  | nil => exact absurd rfl h
  | cons b t => simp [List.intercalate, List.intersperse]

/-- An uploaded file whose parse yields the given PDF pages; packaging for
statements about the PDF branch of lines 132-139. -/
def pdfFile (nm fdesc : PyStr) (pages : List (Option PyStr)) : UploadedFile :=
  { name := nm, description := fdesc, content := .pdf pages }

/-- Claim C8: a PDF page with no extractable text contributes the empty
string, interchangeable with a page extracting an empty string; pages are
joined in order with newline separators; and a PDF of a single such page has
an empty content section while its filename and description still head the
block. -/
theorem C8_pdf_empty_pages (nm fdesc : PyStr)
    (pre post : List (Option PyStr)) :
    text_content (pdfFile nm fdesc (pre ++ none :: post))
      = text_content (pdfFile nm fdesc (pre ++ some [] :: post)) ∧
    (∀ (p : Option PyStr) (rest : List (Option PyStr)), rest ≠ [] →
      text_content (pdfFile nm fdesc (p :: rest))
        = p.getD [] ++ lit ("\n") ++ text_content (pdfFile nm fdesc rest)) ∧
    text_content (pdfFile nm fdesc [none]) = [] ∧
    (∀ descs : List (PyStr × PyStr),
      docBlock nm (dictGet descs nm [])
          (text_content (pdfFile nm fdesc [none]))
        = lit ("File: ") ++ nm ++ lit ("\nDescription: ")
          ++ dictGet descs nm [] ++ lit ("\nContent:\n")) := by
  refine ⟨?_, ?_, ?_, ?_⟩
  · simp [text_content, parseFile, pdfFile]
  · intro p rest hrest
    simp only [text_content, parseFile, pdfFile, List.map_cons]
    rw [intercalate_cons_of_ne_nil]
    simpa using hrest
  · simp [text_content, parseFile, pdfFile, List.intercalate]
  · intro descs
    simp [docBlock, text_content, parseFile, pdfFile, List.intercalate, snippet]

/-- Witness for C8 at concrete inputs: the hypothesis-bearing conjunct,
applied to a two-page PDF whose first page has no extractable text. -/
theorem C8_pdf_empty_pages_witness :
    text_content (pdfFile (lit ("doc.pdf")) (lit ("d"))
        (none :: [some (lit ("page two"))]))
      = (none : Option PyStr).getD [] ++ lit ("\n")
        ++ text_content (pdfFile (lit ("doc.pdf")) (lit ("d"))
            [some (lit ("page two"))]) :=
  (C8_pdf_empty_pages (lit ("doc.pdf")) (lit ("d")) [] []).2.1
    none [some (lit ("page two"))] (by decide)

/-- One code point through encode-then-decode: kept when it fits latin-1,
replaced by the question mark otherwise. -/
theorem sanitize_char_round (c : Char) :
    Char.ofNat (if c.toNat ≤ 255 then c.toNat else 63)
      = if c.toNat ≤ 255 then c else '?' := by
  by_cases hc : c.toNat ≤ 255
  · rw [if_pos hc, if_pos hc, Char.ofNat_toNat]
  · rw [if_neg hc, if_neg hc]

/-- The sanitizer is the pointwise narrowing to latin-1 with the question
mark as substitute. -/
theorem sanitize_for_pdf_eq_map (s : PyStr) :
    sanitize_for_pdf s
      = s.map (fun c => if c.toNat ≤ 255 then c else '?') := by
  rw [sanitize_for_pdf, latin1Decode, latin1EncodeReplace, List.map_map]
  exact List.map_congr_left fun c _ => sanitize_char_round c

/-- Claim C9: export sanitization is idempotent, it is exactly the pointwise
replacement of characters outside latin-1 by a visible question mark (and,
being a total function built from a replacing encode and a latin-1 decode,
it never raises), and every character it outputs fits latin-1. -/
theorem C9_sanitize_idempotent (s : PyStr) :
    sanitize_for_pdf (sanitize_for_pdf s) = sanitize_for_pdf s ∧
    sanitize_for_pdf s
      = s.map (fun c => if c.toNat ≤ 255 then c else '?') ∧
    (sanitize_for_pdf s).all (fun c => decide (c.toNat ≤ 255)) = true := by
  refine ⟨?_, sanitize_for_pdf_eq_map s, ?_⟩
  · rw [sanitize_for_pdf_eq_map, sanitize_for_pdf_eq_map, List.map_map]
    refine List.map_congr_left fun c _ => ?_
    by_cases hc : c.toNat ≤ 255 <;> simp [Function.comp, hc]
  · rw [sanitize_for_pdf_eq_map, List.all_map, List.all_eq_true]
    intro c _
    by_cases hc : c.toNat ≤ 255 <;> simp [Function.comp, hc]

/-- Cons unfolding of the dict lookup. -/
theorem dictGet_cons (k1 v1 : PyStr) (rest : List (PyStr × PyStr))
    (k0 dflt : PyStr) :
    dictGet ((k1, v1) :: rest) k0 dflt
      = if k1 = k0 then v1 else dictGet rest k0 dflt := by
  by_cases h : k1 = k0
  · simp [dictGet, List.find?, h]
  · simp [dictGet, List.find?, beq_eq_false_iff_ne.mpr h, h]

/-- Looking a key up after one dict assignment: the assigned key reads the
new value, every other key is untouched. -/
theorem dictGet_dictSet (d : List (PyStr × PyStr)) (k v k0 dflt : PyStr) :
    dictGet (dictSet d k v) k0 dflt
      = if k0 = k then v else dictGet d k0 dflt := by
  induction d with
  | nil =>
    rw [dictSet, dictGet_cons]
    by_cases h : k0 = k
    · rw [if_pos h.symm, if_pos h]
    · rw [if_neg fun hh => h hh.symm, if_neg h]
  | cons p rest ih =>
    obtain ⟨k1, v1⟩ := p
    by_cases h1 : k1 = k
    · rw [dictSet, if_pos h1, dictGet_cons, dictGet_cons]
      by_cases h0 : k0 = k
      · rw [if_pos h0.symm, if_pos h0]
      · rw [if_neg fun hh => h0 hh.symm, if_neg h0,
          if_neg fun hh => h0 ((h1.symm.trans hh).symm)]
    · rw [dictSet, if_neg h1, dictGet_cons, ih, dictGet_cons]
      by_cases h0 : k1 = k0
      · rw [if_pos h0, if_neg fun hh => h1 (h0.trans hh), if_pos h0]
      · rw [if_neg h0, if_neg h0]

/-- Cons unfolding of `lastDesc`. -/
theorem lastDesc_cons (f : UploadedFile) (fs : List UploadedFile) (n : PyStr) :
    lastDesc (f :: fs) n
      = match lastDesc fs n with
        | some v => some v
        | none => if f.name = n then some f.description else none := rfl

/-- Looking a name up in the finished description dict yields the
description of the last uploaded file with that name. -/
theorem file_descriptions_lookup (files : List UploadedFile) :
    ∀ (d : List (PyStr × PyStr)) (n dflt : PyStr),
      dictGet (files.foldl (fun d f => dictSet d f.name f.description) d) n dflt
        = match lastDesc files n with
          | some v => v
          | none => dictGet d n dflt := by
  induction files with
  | nil => intro d n dflt; rfl
  | cons f fs ih =>
    intro d n dflt
    rw [List.foldl_cons, ih, lastDesc_cons]
    cases hl : lastDesc fs n with
    | some v => rfl
    | none =>
      rw [dictGet_dictSet]
      by_cases h : n = f.name
      · rw [if_pos h, if_pos h.symm]
      · rw [if_neg h, if_neg fun hh => h hh.symm]

/-- `lastDesc` over an append prefers a match in the right part. -/
theorem lastDesc_append (l1 l2 : List UploadedFile) (n : PyStr) :
    lastDesc (l1 ++ l2) n
      = match lastDesc l2 n with
        | some v => some v
        | none => lastDesc l1 n := by
  induction l1 with
  | nil =>
    rw [List.nil_append]
    cases hl : lastDesc l2 n <;> rfl
  | cons f fs ih =>
    rw [List.cons_append, lastDesc_cons, ih, lastDesc_cons]
    cases hl : lastDesc l2 n <;> cases hf : lastDesc fs n <;> rfl

/-- `lastDesc` finds nothing when no file bears the name. -/
theorem lastDesc_eq_none (post : List UploadedFile) (n : PyStr)
    (h : ∀ g ∈ post, g.name ≠ n) : lastDesc post n = none := by
  induction post with
  | nil => rfl
  | cons f fs ih =>
    rw [lastDesc_cons, ih fun g hg => h g (List.mem_cons_of_mem f hg)]
    simp [h f (List.mem_cons_self f fs)]

/-- Claim C10: descriptions are keyed by filename; when two uploaded files
share a name (the later one being the last such file), the later file's
description is the one the dict serves for that name, and both files'
assembled blocks carry that single shared description. -/
theorem C10_description_keyed_by_name (pre mid post : List UploadedFile)
    (f1 f2 : UploadedFile) (h12 : f1.name = f2.name)
    (hpost : ∀ g ∈ post, g.name ≠ f2.name) :
    dictGet (file_descriptions (pre ++ f1 :: (mid ++ f2 :: post))) f1.name []
      = f2.description ∧
    ∃ bs1 bs2 bs3,
      all_texts (file_descriptions (pre ++ f1 :: (mid ++ f2 :: post)))
          (pre ++ f1 :: (mid ++ f2 :: post))
        = bs1 ++ docBlock f1.name f2.description (text_content f1)
          :: (bs2 ++ docBlock f2.name f2.description (text_content f2) :: bs3) := by
  have hpost0 : lastDesc post f1.name = none :=
    lastDesc_eq_none post f1.name fun g hg => h12 ▸ hpost g hg
  have hf2 : lastDesc (f2 :: post) f1.name = some f2.description := by
    rw [lastDesc_cons, hpost0, if_pos h12.symm]
  have hmid : lastDesc (mid ++ f2 :: post) f1.name = some f2.description := by
    rw [lastDesc_append, hf2]
  have hlast : lastDesc (pre ++ f1 :: (mid ++ f2 :: post)) f1.name
      = some f2.description := by
    rw [lastDesc_append, lastDesc_cons, hmid]
  have hget : dictGet (file_descriptions (pre ++ f1 :: (mid ++ f2 :: post)))
      f1.name [] = f2.description := by
    rw [file_descriptions, file_descriptions_lookup, hlast]
  refine ⟨hget, ?_⟩
  have hget2 : dictGet (file_descriptions (pre ++ f1 :: (mid ++ f2 :: post)))
      f2.name [] = f2.description := h12 ▸ hget
  rw [all_texts]
  simp only [List.map_append, List.map_cons]
  rw [hget, hget2]
  exact ⟨_, _, _, rfl⟩

/-- First of two same-named files used by the C10 witness. -/
def fileDup1 : UploadedFile :=
  { name := lit ("a.pdf"), description := lit ("first"),
    content := .unknownExt }

/-- Second of two same-named files used by the C10 witness. -/
def fileDup2 : UploadedFile :=
  { name := lit ("a.pdf"), description := lit ("second"),
    content := .unknownExt }

/-- Witness for C10 at a concrete input: with two files both named `a.pdf`,
the dict serves the second file's description for that name. -/
theorem C10_description_keyed_by_name_witness :
    dictGet (file_descriptions ([] ++ fileDup1 :: ([] ++ fileDup2 :: [])))
        fileDup1.name []
      = fileDup2.description :=
  (C10_description_keyed_by_name [] [] [] fileDup1 fileDup2 rfl
    (by simp)).1

end BPRAgent
